import Mathlib

/-!
Shallow embedding of the item-tracking core of the repository:
the usecase orchestrator and HTTP-handler validation (`internal/usecase`,
`internal/handler` — the files under `src/unnamed/`), and the SQL-backed
repository (`src/internal/interfaces/database/items_repository.go`).

Machine integers (Go `int`, `int64`) are modelled as `Int`; wall-clock
times (`time.Time`) as an abstract `Int` instant supplied explicitly
(`now`).  Fallible Go functions returning `(T, error)` are modelled as
`Except DomainError T`; error wrapping with `fmt.Errorf("...: %w", err)`
preserves the error's classification (that is what `%w` + `errors.Is`
give the callers), so a wrapped error is modelled by its kind.
-/

namespace Aicon

/-- The error taxonomy of `internal/domain/errors` (only declared through its
callers in the sources: `ErrInvalidInput`, `ErrItemNotFound`,
`ErrDatabaseError`, with `IsNotFoundError` / `IsValidationError` testing the
classification). -/
inductive DomainError where
  | invalidInput
  | itemNotFound
  | databaseError
deriving Repr, DecidableEq

/-- `entity.Item`: id, name, category, brand, purchasePrice, purchaseDate
(canonical `YYYY-MM-DD` string), createdAt, updatedAt. -/
structure Item where
  id : Int
  name : String
  category : String
  brand : String
  purchasePrice : Int
  purchaseDate : String
  createdAt : Int
  updatedAt : Int
deriving Repr, DecidableEq

/-- `usecase.CreateItemInput`. -/
structure CreateItemInput where
  name : String
  category : String
  brand : String
  purchasePrice : Int
  purchaseDate : String
deriving Repr, DecidableEq

/-- `usecase.UpdateItemInput`: each field is a Go pointer (`nil` = absent),
modelled as an `Option`. -/
structure UpdateItemInput where
  name : Option String
  brand : Option String
  purchasePrice : Option Int
deriving Repr, DecidableEq

/-- `usecase.CategorySummary`.  The Go `map[string]int` is modelled as an
association list with distinct keys (the order in which
`GetCategorySummary` inserts them). -/
structure CategorySummary where
  categories : List (String × Int)
  total : Int
deriving Repr, DecidableEq

/-- Modelled from the spec: `entity.GetValidCategories` lives in the
`internal/domain/entity` package, which is not among the sources; the spec
fixes "a single fixed closed set of valid categories, shared by validation
and summary", and the usecase tests enumerate its members
(`時計, バッグ, ジュエリー, 靴, その他`). -/
def GetValidCategories : List String :=
  ["時計", "バッグ", "ジュエリー", "靴", "その他"]

/-- Modelled from the spec: Gregorian leap-year rule, part of the "date
parses as a valid calendar date" invariant enforced by the missing
`entity` package. -/
def isLeapYear (y : Nat) : Bool :=
  (y % 4 == 0 && y % 100 != 0) || y % 400 == 0

/-- Modelled from the spec: days in a month of the proleptic Gregorian
calendar. -/
def daysInMonth (y m : Nat) : Nat :=
  if m == 2 then (if isLeapYear y then 29 else 28)
  else if m == 4 || m == 6 || m == 9 || m == 11 then 30
  else 31

def digitVal (c : Char) : Nat := c.toNat - '0'.toNat

/-- Modelled from the spec: "purchaseDate: calendar date, canonical textual
form YYYY-MM-DD" — the string parses (Go layout `"2006-01-02"`) as a real
calendar date. -/
def isValidDate (s : String) : Bool :=
  match s.toList with
  | [y1, y2, y3, y4, sep1, m1, m2, sep2, d1, d2] =>
    y1.isDigit && y2.isDigit && y3.isDigit && y4.isDigit &&
    sep1 == '-' && sep2 == '-' &&
    m1.isDigit && m2.isDigit && d1.isDigit && d2.isDigit &&
    (let y := ((digitVal y1 * 10 + digitVal y2) * 10 + digitVal y3) * 10 + digitVal y4
     let m := digitVal m1 * 10 + digitVal m2
     let d := digitVal d1 * 10 + digitVal d2
     1 ≤ m && m ≤ 12 && 1 ≤ d && d ≤ daysInMonth y m)
  | _ => false

/-- Modelled from the spec: `entity.NewItem` (package `internal/domain/entity`,
not among the sources; only its callers and tests are).  Per §4.1 it
"validates, in order of user comprehensibility: required-field emptiness,
category membership, price sign, date parseability", returns a description
identifying the failing field, rejects on the first violated invariant, and
on success yields an `Item` with id 0 and creation-time timestamps. -/
def NewItem (name category brand : String) (purchasePrice : Int)
    (purchaseDate : String) (now : Int) : Except String Item :=
  if name = "" then .error "name is required"
  else if category = "" then .error "category is required"
  else if brand = "" then .error "brand is required"
  else if purchaseDate = "" then .error "purchase_date is required"
  else if category ∉ GetValidCategories then .error "category must be one of the valid categories"
  else if purchasePrice < 0 then .error "purchase_price must be 0 or greater"
  else if isValidDate purchaseDate = false then .error "purchase_date must be a valid date in YYYY-MM-DD format"
  else .ok {
    id := 0
    name := name
    category := category
    brand := brand
    purchasePrice := purchasePrice
    purchaseDate := purchaseDate
    createdAt := now
    updatedAt := now
  }

/-- One observable call to the repository port, used to record which
repository operations a usecase run performs (the usecase tests assert
exactly this with `mockRepo.AssertExpectations`). -/
inductive RepoCall where
  | findAll
  | findByID (id : Int)
  | create (item : Item)
  | update (item : Item)
  | delete (id : Int)
  | getSummaryByCategory
deriving Repr, DecidableEq

/-- `usecase.ItemRepository` (`internal/usecase/repository.go`): the
abstract persistence port consumed by the orchestrator.  Each operation is
modelled as a function giving that call's result. -/
structure ItemRepository where
  findByID : Int → Except DomainError Item
  create : Item → Except DomainError Item
  update : Item → Except DomainError Item
  delete : Int → Except DomainError Unit
  getSummaryByCategory : Except DomainError (List (String × Int))

/-- The merge step of `itemUsecase.UpdateItem` (part_001 lines 137–150):
each non-nil pointer field of the input overwrites the corresponding
field of the fetched item, then `UpdatedAt` is set to the current time. -/
def mergeUpdate (existing : Item) (input : UpdateItemInput) (now : Int) : Item :=
  { existing with
    name := input.name.getD existing.name
    brand := input.brand.getD existing.brand
    purchasePrice := input.purchasePrice.getD existing.purchasePrice
    updatedAt := now }

/-- `itemUsecase.GetItemByID`.  Returns the Go result together with the
trace of repository calls made. -/
def GetItemByID (repo : ItemRepository) (id : Int) :
    Except DomainError Item × List RepoCall :=
  if id ≤ 0 then (.error .invalidInput, [])
  else
    match repo.findByID id with
    | .error .itemNotFound => (.error .itemNotFound, [.findByID id])
    | .error e => (.error e, [.findByID id])
    | .ok item => (.ok item, [.findByID id])

/-- `itemUsecase.CreateItem`: entity construction, then `Create`; a
constructor failure is wrapped into `ErrInvalidInput`. -/
def CreateItem (repo : ItemRepository) (now : Int) (input : CreateItemInput) :
    Except DomainError Item × List RepoCall :=
  match NewItem input.name input.category input.brand input.purchasePrice input.purchaseDate now with
  | .error _ => (.error .invalidInput, [])
  | .ok item =>
    match repo.create item with
    | .error e => (.error e, [.create item])
    | .ok created => (.ok created, [.create item])

/-- `itemUsecase.DeleteItem`. -/
def DeleteItem (repo : ItemRepository) (id : Int) :
    Except DomainError Unit × List RepoCall :=
  if id ≤ 0 then (.error .invalidInput, [])
  else
    match repo.findByID id with
    | .error .itemNotFound => (.error .itemNotFound, [.findByID id])
    | .error e => (.error e, [.findByID id])
    | .ok _ =>
      match repo.delete id with
      | .error e => (.error e, [.findByID id, .delete id])
      | .ok _ => (.ok (), [.findByID id, .delete id])

/-- `itemUsecase.UpdateItem` (part_001 lines 122–160): validate `id > 0`,
fetch the existing item, overwrite the non-nil input fields, refresh
`UpdatedAt`, hand the merged item to the repository's `Update`.  Note: no
validation of the input fields themselves happens here. -/
def UpdateItem (repo : ItemRepository) (now : Int) (id : Int)
    (input : UpdateItemInput) : Except DomainError Item × List RepoCall :=
  if id ≤ 0 then (.error .invalidInput, [])
  else
    match repo.findByID id with
    | .error .itemNotFound => (.error .itemNotFound, [.findByID id])
    | .error e => (.error e, [.findByID id])
    | .ok existing =>
      let merged := mergeUpdate existing input now
      match repo.update merged with
      | .error e => (.error e, [.findByID id, .update merged])
      | .ok updated => (.ok updated, [.findByID id, .update merged])

/-- The pure body of `itemUsecase.GetCategorySummary` (part_001 lines
168–186): `total` sums every count of the raw mapping; the result mapping
is built by iterating `GetValidCategories`, taking the raw count when the
category is present and 0 otherwise. -/
def summaryOf (raw : List (String × Int)) : CategorySummary :=
  { categories := GetValidCategories.map (fun c => (c, (raw.lookup c).getD 0))
    total := raw.foldl (fun acc p => acc + p.2) 0 }

/-- `itemUsecase.GetCategorySummary`. -/
def GetCategorySummary (repo : ItemRepository) :
    Except DomainError CategorySummary × List RepoCall :=
  match repo.getSummaryByCategory with
  | .error e => (.error e, [.getSummaryByCategory])
  | .ok raw => (.ok (summaryOf raw), [.getSummaryByCategory])

/-- `validateUpdateItemInput` (handler layer, part_001 lines 385–406): the
error strings appended, in the order the Go code appends them.  Written as
a concatenation of the four independent append-only checks. -/
def validateUpdateItemInput (input : UpdateItemInput) : List String :=
  (match input.purchasePrice with
   | some p => if p < 0 then ["purchase_price must be 0 or greater"] else []
   | none => []) ++
  (match input.name with
   | some n => if n = "" then ["name cannot be empty"] else []
   | none => []) ++
  (match input.brand with
   | some b => if b = "" then ["brand cannot be empty"] else []
   | none => []) ++
  (if input.name.isNone && input.brand.isNone && input.purchasePrice.isNone then
     ["at least one field (name, brand, or purchase_price) is required for update"]
   else [])

/-- Outcome of `ItemHandler.UpdateItem` after request binding (transport
binding and id parsing are external collaborators). -/
inductive HandlerResult where
  | okJSON (item : Item)
  | badRequestValidation (details : List String)
  | notFoundResp
  | internalErrorResp
deriving Repr

/-- `ItemHandler.UpdateItem` (part_001 lines 309–346): run
`validateUpdateItemInput`; on any validation error answer 400 without
touching the usecase; otherwise call `itemUsecase.UpdateItem` and map its
error classification onto the HTTP responses. -/
def ItemHandlerUpdateItem (repo : ItemRepository) (now : Int) (id : Int)
    (input : UpdateItemInput) : HandlerResult × List RepoCall :=
  match validateUpdateItemInput input with
  | [] =>
    match UpdateItem repo now id input with
    | (.ok item, tr) => (.okJSON item, tr)
    | (.error .itemNotFound, tr) => (.notFoundResp, tr)
    | (.error _, tr) => (.internalErrorResp, tr)
  | errs => (.badRequestValidation errs, [])

/-- `database.ItemRepository.FindByID`: `SELECT ... WHERE id = ?`; no row
(`sql.ErrNoRows`) becomes `ErrItemNotFound`.  The SQL table is modelled as
a list of rows. -/
def sqlFindByID (db : List Item) (id : Int) : Except DomainError Item :=
  match db.find? (fun r => r.id == id) with
  | some item => .ok item
  | none => .error .itemNotFound

/-- `database.ItemRepository.Delete`: `DELETE FROM items WHERE id = ?`;
zero rows affected reports `ErrItemNotFound`.  Returns the resulting
table on success. -/
def sqlDelete (db : List Item) (id : Int) : Except DomainError (List Item) :=
  let rowsAffected := (db.filter (fun r => r.id == id)).length
  if rowsAffected == 0 then .error .itemNotFound
  else .ok (db.filter (fun r => !(r.id == id)))

/-- The SET-clause fragments `database.ItemRepository.Update` accumulates
(items_repository.go lines 148–170): `name` iff non-empty, `brand` iff
non-empty, `purchase_price` iff ≥ 0, and `updated_at` always. -/
def updateCols (item : Item) : List String :=
  (if item.name ≠ "" then ["name = ?"] else []) ++
  (if item.brand ≠ "" then ["brand = ?"] else []) ++
  (if item.purchasePrice ≥ 0 then ["purchase_price = ?"] else []) ++
  ["updated_at = ?"]

/-- The effect of executing the generated UPDATE statement on one matching
row: exactly the qualifying columns are overwritten. -/
def applySet (row : Item) (item : Item) (now : Int) : Item :=
  { row with
    name := if item.name ≠ "" then item.name else row.name
    brand := if item.brand ≠ "" then item.brand else row.brand
    purchasePrice := if item.purchasePrice ≥ 0 then item.purchasePrice else row.purchasePrice
    updatedAt := now }

/-- One run of `database.ItemRepository.Update`: its result, whether an
UPDATE statement was executed at all, and the SET columns of that
statement. -/
structure UpdateRun where
  result : Except DomainError Item
  executedSQL : Bool
  setCols : List String

/-- `database.ItemRepository.Update` (items_repository.go lines 143–199):
build the SET clause from value tests; if only `updated_at` qualifies,
skip the UPDATE and re-fetch the row; otherwise execute, report
`ErrItemNotFound` on zero affected rows, and re-fetch the updated row. -/
def sqlUpdate (db : List Item) (now : Int) (item : Item) : UpdateRun :=
  let cols := updateCols item
  if cols.length == 1 && cols.head? == some "updated_at = ?" then
    { result := sqlFindByID db item.id, executedSQL := false, setCols := [] }
  else
    let rowsAffected := (db.filter (fun r => r.id == item.id)).length
    if rowsAffected == 0 then
      { result := .error .itemNotFound, executedSQL := true, setCols := cols }
    else
      let db2 := db.map (fun r => if r.id == item.id then applySet r item now else r)
      { result := sqlFindByID db2 item.id, executedSQL := true, setCols := cols }

/-- A store-backed instance of the repository port, as the usecase tests
build with their mock: lookups over a fixed row list. -/
def storeRepo (db : List Item) : ItemRepository where
  findByID := fun id => sqlFindByID db id
  create := fun item => .ok item
  update := fun item =>
    if (db.find? (fun r => r.id == item.id)).isSome then .ok item
    else .error .itemNotFound
  delete := fun id =>
    if (db.find? (fun r => r.id == id)).isSome then .ok ()
    else .error .itemNotFound
  getSummaryByCategory := .ok []

/-- A repository port whose category aggregation returns a given raw
mapping. -/
def rawRepo (raw : List (String × Int)) : ItemRepository :=
  { storeRepo [] with getSummaryByCategory := .ok raw }

/-- The concrete item of the spec's end-to-end scenario
(`CreateItem("Daytona","時計","ROLEX",1500000,"2023-01-15")`), persisted
with id 1. -/
def daytona : Item :=
  { id := 1, name := "Daytona", category := "時計", brand := "ROLEX"
    purchasePrice := 1500000, purchaseDate := "2023-01-15"
    createdAt := 0, updatedAt := 0 }

/-- Folding `+` over the counts of an association list sums its second
components. -/
theorem foldl_add_snd (l : List (String × Int)) (a : Int) :
    l.foldl (fun acc p => acc + p.2) a = a + (l.map Prod.snd).sum := by
  induction l generalizing a with
  | nil => simp
  | cons x t ih => simp [List.foldl_cons, ih, add_assoc]

/-- `GetCategorySummary` totals every raw count. -/
theorem summaryOf_total (raw : List (String × Int)) :
    (summaryOf raw).total = (raw.map Prod.snd).sum := by
  simp [summaryOf, foldl_add_snd]

/-- The keys of the summary mapping are exactly the category enumeration. -/
theorem summaryOf_keys (raw : List (String × Int)) :
    (summaryOf raw).categories.map Prod.fst = GetValidCategories := by
  simp [summaryOf, List.map_map, Function.comp_def]

/-- `sqlFindByID` only ever reports the item or NotFound. -/
theorem sqlFindByID_ne_invalid (db : List Item) (id : Int) :
    sqlFindByID db id ≠ .error .invalidInput := by
  unfold sqlFindByID
  cases db.find? (fun r => r.id == id) with
  | none => exact fun hc => DomainError.noConfusion (Except.error.inj hc)
  | some item => exact fun hc => Except.noConfusion hc

/-- C1, counterexample: on the all-nil patch, `itemUsecase.UpdateItem` does
not return InvalidInput — with item 1 in the store it fetches the item,
merges nothing, and does invoke the repository's update. -/
theorem C1_counterexample :
    UpdateItem (storeRepo [daytona]) 5 1 { name := none, brand := none, purchasePrice := none } =
      (.ok { daytona with updatedAt := 5 },
       [.findByID 1, .update { daytona with updatedAt := 5 }]) ∧
    (Except.ok { daytona with updatedAt := 5 } : Except DomainError Item) ≠
      Except.error DomainError.invalidInput :=
  ⟨rfl, fun h => Except.noConfusion h⟩

/-- C1, amended: the zero-field update is rejected before the usecase runs —
`ItemHandler.UpdateItem` answers 400 via `validateUpdateItemInput` and
neither the usecase nor any repository operation is invoked. -/
theorem C1_zero_field_update_rejected_in_handler (repo : ItemRepository)
    (now id : Int) :
    ItemHandlerUpdateItem repo now id { name := none, brand := none, purchasePrice := none } =
      (.badRequestValidation
        ["at least one field (name, brand, or purchase_price) is required for update"],
       []) := rfl

/-- C2: the SQL repository derives field presence from value tests, not from
the tri-state patch.  For a patch marking only `name` present, the merged
item handed to `Update` gets `name`, `brand` AND `purchase_price` columns in
the SET clause, although `brand` and `purchasePrice` were absent from the
patch. -/
theorem C2_presence_rederived_from_values :
    let patch : UpdateItemInput := { name := some "NewName", brand := none, purchasePrice := none }
    patch.brand = none ∧ patch.purchasePrice = none ∧
    updateCols (mergeUpdate daytona patch 5) =
      ["name = ?", "brand = ?", "purchase_price = ?", "updated_at = ?"] :=
  ⟨rfl, rfl, rfl⟩

/-- C3: the merge touches exactly the present patch fields plus `updatedAt`;
`id`, `createdAt`, `category` and `purchaseDate` are preserved, and every
absent field keeps its pre-update value. -/
theorem C3_merge_frame (existing : Item) (input : UpdateItemInput) (now : Int) :
    (mergeUpdate existing input now).id = existing.id ∧
    (mergeUpdate existing input now).createdAt = existing.createdAt ∧
    (mergeUpdate existing input now).category = existing.category ∧
    (mergeUpdate existing input now).purchaseDate = existing.purchaseDate ∧
    (mergeUpdate existing input now).updatedAt = now ∧
    (input.name = none → (mergeUpdate existing input now).name = existing.name) ∧
    (∀ v, input.name = some v → (mergeUpdate existing input now).name = v) ∧
    (input.brand = none → (mergeUpdate existing input now).brand = existing.brand) ∧
    (∀ v, input.brand = some v → (mergeUpdate existing input now).brand = v) ∧
    (input.purchasePrice = none →
      (mergeUpdate existing input now).purchasePrice = existing.purchasePrice) ∧
    (∀ v, input.purchasePrice = some v →
      (mergeUpdate existing input now).purchasePrice = v) := by
  refine ⟨rfl, rfl, rfl, rfl, rfl, ?_, ?_, ?_, ?_, ?_, ?_⟩
  · intro h; simp [mergeUpdate, h]
  · intro v h; simp [mergeUpdate, h]
  · intro h; simp [mergeUpdate, h]
  · intro v h; simp [mergeUpdate, h]
  · intro h; simp [mergeUpdate, h]
  · intro v h; simp [mergeUpdate, h]

/-- C3, witness: updating only name and price of the sample item. -/
theorem C3_merge_frame_witness :
    (mergeUpdate daytona { name := some "X", brand := none, purchasePrice := some 0 } 9).name = "X" ∧
    (mergeUpdate daytona { name := some "X", brand := none, purchasePrice := some 0 } 9).brand = daytona.brand ∧
    (mergeUpdate daytona { name := some "X", brand := none, purchasePrice := some 0 } 9).purchasePrice = 0 ∧
    (mergeUpdate daytona { name := some "X", brand := none, purchasePrice := some 0 } 9).updatedAt = 9 := by
  obtain ⟨-, -, -, -, h5, -, h7, h8, -, -, h11⟩ :=
    C3_merge_frame daytona { name := some "X", brand := none, purchasePrice := some 0 } 9
  exact ⟨h7 "X" rfl, h8 rfl, h11 0 rfl, h5⟩

/-- C4, counterexample: `itemUsecase.UpdateItem` itself performs no field
validation — a present-but-empty name is merged and handed to the
repository, and the call succeeds rather than returning InvalidInput. -/
theorem C4_counterexample :
    UpdateItem (storeRepo [daytona]) 5 1 { name := some "", brand := none, purchasePrice := none } =
      (.ok { daytona with name := "", updatedAt := 5 },
       [.findByID 1, .update { daytona with name := "", updatedAt := 5 }]) ∧
    ({ daytona with name := "", updatedAt := 5 } : Item).name = "" ∧
    (Except.ok ({ daytona with name := "", updatedAt := 5 }) : Except DomainError Item) ≠
      Except.error DomainError.invalidInput :=
  ⟨rfl, rfl, fun h => Except.noConfusion h⟩

/-- C4, amended: the present-empty-name / present-empty-brand /
present-negative-price checks run in the HTTP handler before the usecase:
on any of them the handler answers 400 with the validation messages and
neither the merge nor any repository call happens. -/
theorem C4_field_validation_in_handler (repo : ItemRepository) (now id : Int)
    (input : UpdateItemInput)
    (h : input.name = some "" ∨ input.brand = some "" ∨
         ∃ p, input.purchasePrice = some p ∧ p < 0) :
    validateUpdateItemInput input ≠ [] ∧
    ItemHandlerUpdateItem repo now id input =
      (.badRequestValidation (validateUpdateItemInput input), []) := by
  have hne : validateUpdateItemInput input ≠ [] := by
    rcases h with h | h | ⟨p, hp, hneg⟩
    · simp [validateUpdateItemInput, h]
    · simp [validateUpdateItemInput, h]
    · simp [validateUpdateItemInput, hp, hneg]
  refine ⟨hne, ?_⟩
  unfold ItemHandlerUpdateItem
  cases hv : validateUpdateItemInput input with
  | nil => exact absurd hv hne
  | cons a t => rfl

/-- C4, witness: a present-empty name is refused by the handler. -/
theorem C4_field_validation_in_handler_witness :
    validateUpdateItemInput { name := some "", brand := none, purchasePrice := none } ≠ [] ∧
    ItemHandlerUpdateItem (storeRepo [daytona]) 5 1
        { name := some "", brand := none, purchasePrice := none } =
      (.badRequestValidation
        (validateUpdateItemInput { name := some "", brand := none, purchasePrice := none }),
       []) :=
  C4_field_validation_in_handler (storeRepo [daytona]) 5 1 _ (Or.inl rfl)

/-- C5: every non-positive id is rejected as InvalidInput by `GetItemByID`,
`DeleteItem` and `UpdateItem`, with no repository call at all. -/
theorem C5_nonpositive_id (repo : ItemRepository) (id : Int) (h : id ≤ 0)
    (now : Int) (input : UpdateItemInput) :
    GetItemByID repo id = (.error .invalidInput, []) ∧
    DeleteItem repo id = (.error .invalidInput, []) ∧
    UpdateItem repo now id input = (.error .invalidInput, []) := by
  refine ⟨?_, ?_, ?_⟩ <;> simp [GetItemByID, DeleteItem, UpdateItem, h]

/-- C5, witness: id 0 against a non-empty store. -/
theorem C5_nonpositive_id_witness :
    GetItemByID (storeRepo [daytona]) 0 = (.error .invalidInput, []) ∧
    DeleteItem (storeRepo [daytona]) 0 = (.error .invalidInput, []) ∧
    UpdateItem (storeRepo [daytona]) 5 0
        { name := some "X", brand := none, purchasePrice := none } =
      (.error .invalidInput, []) :=
  C5_nonpositive_id (storeRepo [daytona]) 0 (by decide) 5 _

/-- C6: `GetCategorySummary` passes the raw mapping through `summaryOf`,
whose total sums every raw count and whose mapping holds exactly the
enumerated categories — raw count where present, 0 where absent; in
particular raw `{時計 2, バッグ 1}` gives total 3 with every other
enumerated category 0, and the empty raw mapping gives total 0 with every
enumerated category present at 0. -/
theorem C6_category_summary :
    (∀ repo : ItemRepository, ∀ raw : List (String × Int),
       repo.getSummaryByCategory = .ok raw →
       GetCategorySummary repo = (.ok (summaryOf raw), [.getSummaryByCategory])) ∧
    (∀ raw : List (String × Int),
       (summaryOf raw).total = (raw.map Prod.snd).sum ∧
       (summaryOf raw).categories.map Prod.fst = GetValidCategories ∧
       ∀ c ∈ GetValidCategories, (c, (raw.lookup c).getD 0) ∈ (summaryOf raw).categories) ∧
    summaryOf [("時計", 2), ("バッグ", 1)] =
      { categories := [("時計", 2), ("バッグ", 1), ("ジュエリー", 0), ("靴", 0), ("その他", 0)]
        total := 3 } ∧
    summaryOf [] =
      { categories := [("時計", 0), ("バッグ", 0), ("ジュエリー", 0), ("靴", 0), ("その他", 0)]
        total := 0 } := by
  refine ⟨?_, ?_, rfl, rfl⟩
  · intro repo raw h
    simp [GetCategorySummary, h]
  · intro raw
    exact ⟨summaryOf_total raw, summaryOf_keys raw,
           fun c hc => List.mem_map_of_mem _ hc⟩

/-- C6, witness: the raw mapping of the spec's example, through the
usecase. -/
theorem C6_category_summary_witness :
    GetCategorySummary (rawRepo [("時計", 2), ("バッグ", 1)]) =
      (.ok (summaryOf [("時計", 2), ("バッグ", 1)]), [.getSummaryByCategory]) ∧
    (summaryOf [("時計", 2), ("バッグ", 1)]).total =
      ([("時計", 2), ("バッグ", 1)].map Prod.snd).sum ∧
    ("ジュエリー", ((([("時計", 2), ("バッグ", 1)] : List (String × Int)).lookup "ジュエリー").getD 0)) ∈
      (summaryOf [("時計", 2), ("バッグ", 1)]).categories :=
  ⟨C6_category_summary.1 _ _ rfl,
   (C6_category_summary.2.1 _).1,
   (C6_category_summary.2.1 _).2.2 "ジュエリー" (by decide)⟩

/-- C7: construction (spec-modelled `entity.NewItem`) succeeds exactly when
name and brand are non-empty, the category is enumerated, the price is
non-negative and the date parses; a successful item echoes the inputs and
satisfies every invariant; the checks run in the order required-field
emptiness, category membership, price sign, date parseability; and
`CreateItem` surfaces any construction failure as InvalidInput without a
repository call. -/
theorem C7_construct (name category brand : String) (price : Int)
    (date : String) (now : Int) :
    ((∃ item, NewItem name category brand price date now = .ok item) ↔
      (name ≠ "" ∧ brand ≠ "" ∧ category ∈ GetValidCategories ∧
       0 ≤ price ∧ isValidDate date = true)) ∧
    (∀ item, NewItem name category brand price date now = .ok item →
      item.name = name ∧ item.category = category ∧ item.brand = brand ∧
      item.purchasePrice = price ∧ item.purchaseDate = date ∧
      item.name ≠ "" ∧ item.brand ≠ "" ∧ item.category ∈ GetValidCategories ∧
      0 ≤ item.purchasePrice ∧ isValidDate item.purchaseDate = true) ∧
    (name = "" →
      NewItem name category brand price date now = .error "name is required") ∧
    (name ≠ "" → category = "" →
      NewItem name category brand price date now = .error "category is required") ∧
    (name ≠ "" → category ≠ "" → brand = "" →
      NewItem name category brand price date now = .error "brand is required") ∧
    (name ≠ "" → category ≠ "" → brand ≠ "" → date = "" →
      NewItem name category brand price date now = .error "purchase_date is required") ∧
    (name ≠ "" → category ≠ "" → brand ≠ "" → date ≠ "" →
      category ∉ GetValidCategories →
      NewItem name category brand price date now =
        .error "category must be one of the valid categories") ∧
    (name ≠ "" → category ≠ "" → brand ≠ "" → date ≠ "" →
      category ∈ GetValidCategories → price < 0 →
      NewItem name category brand price date now =
        .error "purchase_price must be 0 or greater") ∧
    (name ≠ "" → category ≠ "" → brand ≠ "" → date ≠ "" →
      category ∈ GetValidCategories → 0 ≤ price → isValidDate date = false →
      NewItem name category brand price date now =
        .error "purchase_date must be a valid date in YYYY-MM-DD format") ∧
    (∀ repo : ItemRepository, (∃ s, NewItem name category brand price date now = .error s) →
      CreateItem repo now
          { name := name, category := category, brand := brand,
            purchasePrice := price, purchaseDate := date } =
        (.error .invalidInput, [])) := by
  refine ⟨?_, ?_, ?_, ?_, ?_, ?_, ?_, ?_, ?_, ?_⟩
  · constructor
    · rintro ⟨item, hit⟩
      unfold NewItem at hit
      split_ifs at hit with h1 h2 h3 h4 h5 h6 h7
      exact ⟨h1, h3, h5, not_lt.mp h6, by simpa using h7⟩
    · rintro ⟨hn, hb, hc, hp, hd⟩
      have hcne : category ≠ "" := by
        rintro rfl; simp [GetValidCategories] at hc
      have hdne : date ≠ "" := by
        rintro rfl; simp [isValidDate] at hd
      refine ⟨{ id := 0, name := name, category := category, brand := brand,
                purchasePrice := price, purchaseDate := date,
                createdAt := now, updatedAt := now }, ?_⟩
      simp [NewItem, hn, hb, hcne, hdne, hc, not_lt.mpr hp, hd]
  · intro item hit
    unfold NewItem at hit
    split_ifs at hit with h1 h2 h3 h4 h5 h6 h7
    injection hit with hi
    subst hi
    exact ⟨rfl, rfl, rfl, rfl, rfl, h1, h3, h5, not_lt.mp h6,
           by simpa using h7⟩
  · intro h1; simp [NewItem, h1]
  · intro h1 h2; simp [NewItem, h1, h2]
  · intro h1 h2 h3; simp [NewItem, h1, h2, h3]
  · intro h1 h2 h3 h4; simp [NewItem, h1, h2, h3, h4]
  · intro h1 h2 h3 h4 h5; simp [NewItem, h1, h2, h3, h4, h5]
  · intro h1 h2 h3 h4 h5 h6; simp [NewItem, h1, h2, h3, h4, h5, h6]
  · intro h1 h2 h3 h4 h5 h6 h7
    simp [NewItem, h1, h2, h3, h4, h5, not_lt.mpr h6, h7]
  · rintro repo ⟨s, hs⟩
    unfold CreateItem
    rw [hs]

/-- C7, witness: the spec's scenario input constructs; an empty name and an
unenumerated category are refused, in validation order; `CreateItem`
surfaces the failure as InvalidInput without touching the store. -/
theorem C7_construct_witness :
    NewItem "Daytona" "時計" "ROLEX" 1500000 "2023-01-15" 7 =
      .ok { id := 0, name := "Daytona", category := "時計", brand := "ROLEX",
            purchasePrice := 1500000, purchaseDate := "2023-01-15",
            createdAt := 7, updatedAt := 7 } ∧
    NewItem "" "時計" "ROLEX" 1500000 "2023-01-15" 7 = .error "name is required" ∧
    NewItem "Daytona" "家具" "ROLEX" 1500000 "2023-01-15" 7 =
      .error "category must be one of the valid categories" ∧
    CreateItem (storeRepo []) 7
        { name := "", category := "時計", brand := "ROLEX",
          purchasePrice := 1500000, purchaseDate := "2023-01-15" } =
      (.error .invalidInput, []) := by
  refine ⟨rfl, ?_, ?_, ?_⟩
  · exact (C7_construct "" "時計" "ROLEX" 1500000 "2023-01-15" 7).2.2.1 rfl
  · exact (C7_construct "Daytona" "家具" "ROLEX" 1500000 "2023-01-15" 7).2.2.2.2.2.2.1
      (by decide) (by decide) (by decide) (by decide) (by decide)
  · exact (C7_construct "" "時計" "ROLEX" 1500000 "2023-01-15" 7).2.2.2.2.2.2.2.2.2
      (storeRepo []) ⟨"name is required", by
        exact (C7_construct "" "時計" "ROLEX" 1500000 "2023-01-15" 7).2.2.1 rfl⟩

/-- C8, counterexample: id 0 is absent from the empty store, yet
`DeleteItem` answers InvalidInput (the id guard fires first), not
NotFound. -/
theorem C8_counterexample :
    (∀ r ∈ ([] : List Item), r.id ≠ 0) ∧
    DeleteItem (storeRepo []) 0 = (.error .invalidInput, []) ∧
    (Except.error DomainError.invalidInput : Except DomainError Unit) ≠
      Except.error DomainError.itemNotFound := by
  refine ⟨by simp, rfl, ?_⟩
  exact fun h => DomainError.noConfusion (Except.error.inj h)

/-- C8, amended: for every positive id absent from the store, `DeleteItem`
reports NotFound (never silent success) after the existence check; and at
the repository layer a DELETE affecting zero rows reports NotFound. -/
theorem C8_delete_not_found (db : List Item) (id : Int) (hpos : 0 < id)
    (habs : db.find? (fun r => r.id == id) = none) :
    DeleteItem (storeRepo db) id = (.error .itemNotFound, [.findByID id]) ∧
    ∀ db2 : List Item, ∀ id2 : Int,
      (db2.filter (fun r => r.id == id2)).length = 0 →
      sqlDelete db2 id2 = .error .itemNotFound := by
  constructor
  · have h0 : ¬ id ≤ 0 := not_le.mpr hpos
    simp [DeleteItem, h0, storeRepo, sqlFindByID, habs]
  · intro db2 id2 h
    simp [sqlDelete, h]

/-- C8, witness: deleting id 3 from the empty store. -/
theorem C8_delete_not_found_witness :
    DeleteItem (storeRepo []) 3 = (.error .itemNotFound, [.findByID 3]) ∧
    sqlDelete [] 3 = .error .itemNotFound := by
  obtain ⟨h1, h2⟩ := C8_delete_not_found [] 3 (by decide) rfl
  exact ⟨h1, h2 [] 3 rfl⟩

/-- C9: the summary total sums every raw count — also those of categories
outside the enumeration — while the returned mapping carries enumerated
keys only; for the raw mapping `{絵画 5}` the total is 5 yet the visible
counts sum to 0. -/
theorem C9_total_counts_unenumerated :
    (∀ raw : List (String × Int),
       (summaryOf raw).total = (raw.map Prod.snd).sum ∧
       (summaryOf raw).categories.map Prod.fst = GetValidCategories) ∧
    ("絵画" ∉ GetValidCategories) ∧
    (summaryOf [("絵画", 5)]).total = 5 ∧
    ((summaryOf [("絵画", 5)]).categories.map Prod.snd).sum = 0 ∧
    ((summaryOf [("絵画", 5)]).categories.map Prod.snd).sum <
      (summaryOf [("絵画", 5)]).total := by
  refine ⟨fun raw => ⟨summaryOf_total raw, summaryOf_keys raw⟩, ?_, rfl, rfl, ?_⟩
  · decide
  · decide

/-- C10: a column enters the generated UPDATE SET clause iff its value
passes the value test — `name`/`brand` iff non-empty, `purchase_price` iff
non-negative — `updated_at` is always included, a failing value is dropped
with no error, and when no data column qualifies the repository update
degenerates to a re-fetch of the existing row. -/
theorem C10_update_statement_columns (item : Item) (db : List Item) (now : Int) :
    ("name = ?" ∈ updateCols item ↔ item.name ≠ "") ∧
    ("brand = ?" ∈ updateCols item ↔ item.brand ≠ "") ∧
    ("purchase_price = ?" ∈ updateCols item ↔ 0 ≤ item.purchasePrice) ∧
    "updated_at = ?" ∈ updateCols item ∧
    (sqlUpdate db now item).result ≠ .error .invalidInput ∧
    (item.name = "" → item.brand = "" → item.purchasePrice < 0 →
      sqlUpdate db now item =
        { result := sqlFindByID db item.id, executedSQL := false, setCols := [] }) := by
  refine ⟨?_, ?_, ?_, ?_, ?_, ?_⟩
  · by_cases h1 : item.name = "" <;> by_cases h2 : item.brand = "" <;>
      by_cases h3 : 0 ≤ item.purchasePrice <;>
      simp [updateCols, h1, h2, h3]
  · by_cases h1 : item.name = "" <;> by_cases h2 : item.brand = "" <;>
      by_cases h3 : 0 ≤ item.purchasePrice <;>
      simp [updateCols, h1, h2, h3]
  · by_cases h1 : item.name = "" <;> by_cases h2 : item.brand = "" <;>
      by_cases h3 : 0 ≤ item.purchasePrice <;>
      simp [updateCols, h1, h2, h3]
  · by_cases h1 : item.name = "" <;> by_cases h2 : item.brand = "" <;>
      by_cases h3 : 0 ≤ item.purchasePrice <;>
      simp [updateCols, h1, h2, h3]
  · simp only [sqlUpdate]
    split_ifs
    · exact sqlFindByID_ne_invalid db item.id
    · exact fun h => DomainError.noConfusion (Except.error.inj h)
    · exact sqlFindByID_ne_invalid _ _
  · intro h1 h2 h3
    simp [sqlUpdate, updateCols, h1, h2, not_le.mpr h3]

/-- C10, witness: a merged item with empty name/brand and negative price
degenerates to a re-fetch; on the sample item the price column qualifies. -/
theorem C10_update_statement_columns_witness :
    sqlUpdate [daytona] 9 { daytona with name := "", brand := "", purchasePrice := -1 } =
      { result := sqlFindByID [daytona] 1, executedSQL := false, setCols := [] } ∧
    ("purchase_price = ?" ∈ updateCols daytona ↔ 0 ≤ daytona.purchasePrice) := by
  constructor
  · exact (C10_update_statement_columns
      { daytona with name := "", brand := "", purchasePrice := -1 } [daytona] 9).2.2.2.2.2
      rfl rfl (by decide)
  · exact (C10_update_statement_columns daytona [daytona] 9).2.2.1

end Aicon
